import Mathlib

/-!
Verification of the Baserow access-control plugin's permission evaluator,
database-visibility check, permission cache, and condition-rule engine.

The definitions below are shallow embeddings of the JavaScript sources:
* `hasPermission` embeds `AccessControlPermissionManagerType.hasPermission`
  (access-control/permissionManagerTypes.js).  The JS tri-state
  `true / false / null` is modelled as `Option Bool` (`none` = `null`).
  JS object maps keyed by numeric ids are modelled as association lists
  `List (Nat × _)`; an absent JS property is `Option.none`; JS truthiness
  of numeric ids (`context.database_id || context.id`, where `0` is falsy)
  is modelled explicitly by `jsOrId`.
* `hasAccessToDatabase` embeds the method of the same name in
  SidebarWithWorkspace.vue.
* `PermissionCache` embeds the cache class of the permission cache service.
  `Date.now()` is modelled by passing the current time explicitly to every
  operation that reads the clock.  The JS `Map` keyed by the string
  `` `${workspaceId}:${userId}:${objectType}:${objectId}:${operation}` ``
  is modelled as an association list keyed by the structured tuple
  `CacheKey`: the string encoding is injective for the values the cache is
  used with (numeric ids and colon-free type/operation names), so
  `_parseKey` inverts `_generateKey` and key-string equality coincides
  with `CacheKey` equality.
-/

namespace Baserow

/-- `permissions.workspace_structure` object of the backend snapshot. -/
structure WorkspaceStructure where
  can_create_table : Bool
  can_delete_table : Bool
  can_delete_database : Bool
  deriving DecidableEq, Repr

/-- One entry of `permissions.database_collaborations` (per database). -/
structure DatabaseCollaboration where
  accessible_tables : List Nat
  can_create_table : Bool
  can_delete_table : Bool
  deriving DecidableEq, Repr

/-- One entry of `permissions.table_permissions` (per table). -/
structure TablePermissionRec where
  permission_level : String
  can_create_field : Bool
  can_delete_field : Bool
  deriving DecidableEq, Repr

/-- The permission snapshot object returned by the backend.  Absent JS
properties are `none`; `field_permissions` maps a field id directly to a
level string, as in the source. -/
structure Permissions where
  is_admin : Bool
  denied_operations : Option (List String)
  workspace_structure : Option WorkspaceStructure
  database_collaborations : Option (List (Nat × DatabaseCollaboration))
  table_permissions : Option (List (Nat × TablePermissionRec))
  field_permissions : Option (List (Nat × String))
  deriving DecidableEq, Repr

/-- The `context` argument of `hasPermission`: only the properties the
evaluator reads (`database_id`, `table_id`, `field_id`, `id`). -/
structure Context where
  database_id : Option Nat
  table_id : Option Nat
  field_id : Option Nat
  id : Option Nat
  deriving DecidableEq, Repr

/-- JS `a || b` on numeric ids: `a` wins unless it is absent or `0`
(both falsy in JS). -/
def jsOrId (a b : Option Nat) : Option Nat :=
  match a with
  | some n => if n = 0 then b else some n
  | none => b

/-- JS object-map indexing `m[k]`: `undefined` when the key is absent or
the index expression itself is `undefined`. -/
def lookupNat (m : List (Nat × α)) (k : Option Nat) : Option α :=
  match k with
  | some n => (m.find? (fun e => decide (e.1 = n))).map (·.2)
  | none => none

/-- `permissions.denied_operations && permissions.denied_operations.includes(operation)`. -/
def opDenied (p : Permissions) (operation : String) : Bool :=
  match p.denied_operations with
  | some ops => decide (operation ∈ ops)
  | none => false

/-- `permissions.workspace_structure?.can_create_table` coerced to a
boolean by the surrounding `if` / `|| false`. -/
def wsCanCreateTable (p : Permissions) : Bool :=
  match p.workspace_structure with
  | some ws => ws.can_create_table
  | none => false

/-- `permissions.workspace_structure?.can_delete_table` coerced to a
boolean by the surrounding `if` / `|| false`. -/
def wsCanDeleteTable (p : Permissions) : Bool :=
  match p.workspace_structure with
  | some ws => ws.can_delete_table
  | none => false

/-- The `if (permissions.workspace_structure) { ... }` block of
`hasPermission`: `some r` means the block executed `return r`, `none`
means control fell through to the next block. -/
def wsBlock (p : Permissions) (operation : String) : Option (Option Bool) :=
  match p.workspace_structure with
  | some ws =>
    if operation = "application.create_application" ∨
        operation = "workspace.create_application" then
      some (some false)
    else if operation = "application.delete" then
      some (some ws.can_delete_database)
    else
      none
  | none => none

/-- The `if (context && permissions.database_collaborations) { ... }`
block of `hasPermission` (same `Option (Option Bool)` convention). -/
def dbBlock (p : Permissions) (operation : String) (context : Option Context) :
    Option (Option Bool) :=
  match context, p.database_collaborations with
  | some c, some collabs =>
    let databaseId := jsOrId c.database_id c.id
    match lookupNat collabs databaseId with
    | some collab =>
      if operation = "database.create_table" then
        some (if wsCanCreateTable p then some true else some collab.can_create_table)
      else if operation = "database.table.delete" then
        some (if wsCanDeleteTable p then some true else some collab.can_delete_table)
      else
        none
    | none =>
      if operation = "database.create_table" then
        some (some (wsCanCreateTable p))
      else if operation = "database.table.delete" then
        some (some (wsCanDeleteTable p))
      else
        none
  | _, _ => none

/-- The `if (context && permissions.table_permissions) { ... }` block of
`hasPermission`. -/
def tableBlock (p : Permissions) (operation : String) (context : Option Context) :
    Option (Option Bool) :=
  match context, p.table_permissions with
  | some c, some tps =>
    let tableId := jsOrId c.table_id c.id
    match lookupNat tps tableId with
    | some tp =>
      if operation = "database.table.field.create" then
        some (some tp.can_create_field)
      else if operation = "database.table.field.delete" then
        some (some tp.can_delete_field)
      else if (operation = "database.table.update" ∨
          operation = "database.table.row.create" ∨
          operation = "database.table.row.update") ∧
          tp.permission_level = "read_only" then
        some (some false)
      else
        none
    | none => none
  | _, _ => none

/-- The `if (context && permissions.field_permissions) { ... }` block of
`hasPermission`. -/
def fieldBlock (p : Permissions) (operation : String) (context : Option Context) :
    Option (Option Bool) :=
  match context, p.field_permissions with
  | some c, some fps =>
    let fieldId := jsOrId c.field_id c.id
    match lookupNat fps fieldId with
    | some fp =>
      if fp = "hidden" ∧ operation = "database.table.field.read" then
        some (some false)
      else if (fp = "read_only" ∨ fp = "hidden") ∧
          operation = "database.table.field.update" then
        some (some false)
      else
        none
    | none => none
  | _, _ => none

/-- `AccessControlPermissionManagerType.hasPermission(permissions,
operation, context, workspaceId)`.  Returns `some true` = allow,
`some false` = deny, `none` = `null` (this manager has no opinion; the
host's registry consults the next manager).  `workspaceId` is unused by
the source body and kept for signature fidelity. -/
def hasPermission (permissions : Option Permissions) (operation : String)
    (context : Option Context) (workspaceId : Nat) : Option Bool :=
  match permissions with
  | none => none
  | some p =>
    if p.is_admin then some true
    else if opDenied p operation then some false
    else
      match wsBlock p operation with
      | some r => r
      | none =>
        match dbBlock p operation context with
        | some r => r
        | none =>
          match tableBlock p operation context with
          | some r => r
          | none =>
            match fieldBlock p operation context with
            | some r => r
            | none => none

/-- One element of `workspace._.permissions`: a per-manager entry with a
`name` and that manager's `permissions` payload. -/
structure ManagerEntry where
  name : String
  permissions : Option Permissions
  deriving DecidableEq, Repr

/-- The slice of the selected workspace's state that
`hasAccessToDatabase` reads (`workspace._.permissionsLoaded`,
`workspace._.permissions`). -/
structure WorkspaceState where
  permissionsLoaded : Bool
  permissions : Option (List ManagerEntry)
  deriving DecidableEq, Repr

/-- `hasAccessToDatabase(database)` from SidebarWithWorkspace.vue, with
the selected workspace passed explicitly and the database represented by
its id. -/
def hasAccessToDatabase (workspace : Option WorkspaceState) (databaseId : Nat) :
    Bool :=
  match workspace with
  | none => true
  | some w =>
    if ¬ w.permissionsLoaded then true
    else
      match w.permissions with
      | none => true
      | some entries =>
        if entries.isEmpty then true
        else
          match entries.find? (fun e => decide (e.name = "access_control")) with
          | none => true
          | some entry =>
            match entry.permissions with
            | none => true
            | some perms =>
              if perms.is_admin then true
              else
                match perms.database_collaborations with
                | some collabs =>
                  match lookupNat collabs (some databaseId) with
                  | some collab => decide (0 < collab.accessible_tables.length)
                  | none => false
                | none => false

/-- Default cache TTL: 5 minutes in milliseconds (`DEFAULT_CACHE_TTL`). -/
def DEFAULT_CACHE_TTL : Nat := 5 * 60 * 1000

/-- Default maximum number of cache entries (`DEFAULT_MAX_CACHE_SIZE`). -/
def DEFAULT_MAX_CACHE_SIZE : Nat := 1000

/-- The components of a cache key (`_generateKey` joins them with `:` into
a string; `_parseKey` recovers them, so the map behaves as if keyed by
this tuple). -/
structure CacheKey where
  workspaceId : Nat
  userId : Nat
  objectType : String
  objectId : Nat
  operation : String
  deriving DecidableEq, Repr

/-- A stored cache entry: `{ value, timestamp }`. -/
structure CacheEntry (α : Type) where
  value : α
  timestamp : Nat
  deriving DecidableEq, Repr

/-- JS `options.x || DEFAULT`: the default is used when the option is
absent or `0` (both falsy). -/
def jsOrNum (a : Option Nat) (dflt : Nat) : Nat :=
  match a with
  | some n => if n = 0 then dflt else n
  | none => dflt

/-- JS `Map.get`. -/
def mapGet (m : List (CacheKey × CacheEntry α)) (k : CacheKey) :
    Option (CacheEntry α) :=
  match m with
  | [] => none
  | e :: rest => if e.1 = k then some e.2 else mapGet rest k

/-- JS `Map.set`: overwrites in place when the key is present (a JS `Map`
keeps the original insertion position), appends otherwise. -/
def mapSet (m : List (CacheKey × CacheEntry α)) (k : CacheKey) (v : CacheEntry α) :
    List (CacheKey × CacheEntry α) :=
  match m with
  | [] => [(k, v)]
  | e :: rest => if e.1 = k then (k, v) :: rest else e :: mapSet rest k v

/-- JS `Map.delete` (keys are unique in a `Map`, so filtering every
occurrence is the same as deleting the one entry). -/
def mapDelete (m : List (CacheKey × CacheEntry α)) (k : CacheKey) :
    List (CacheKey × CacheEntry α) :=
  m.filter (fun e => !(decide (e.1 = k)))

/-- `accessOrder.splice(accessOrder.indexOf(key), 1)`: remove the first
occurrence of `k`, if any. -/
def removeFirst (l : List CacheKey) (k : CacheKey) : List CacheKey :=
  match l with
  | [] => []
  | x :: xs => if x = k then xs else x :: removeFirst xs k

/-- The `PermissionCache` instance state, with `ttl`/`maxSize` immutable
after construction and the map plus LRU order as mutable state. -/
structure PermissionCache (α : Type) where
  ttl : Nat
  maxSize : Nat
  cache : List (CacheKey × CacheEntry α)
  accessOrder : List CacheKey
  deriving DecidableEq, Repr

namespace PermissionCache

/-- `new PermissionCache(options)`: `options.ttl || DEFAULT_CACHE_TTL` and
`options.maxSize || DEFAULT_MAX_CACHE_SIZE` (truthiness fallback, so `0`
selects the default too). -/
def init (α : Type) (ttl maxSize : Option Nat) : PermissionCache α :=
  { ttl := jsOrNum ttl DEFAULT_CACHE_TTL
    maxSize := jsOrNum maxSize DEFAULT_MAX_CACHE_SIZE
    cache := []
    accessOrder := [] }

/-- `_updateAccessOrder(key)`: move (or insert) `key` to the
most-recently-used end. -/
def updateAccessOrder (l : List CacheKey) (k : CacheKey) : List CacheKey :=
  removeFirst l k ++ [k]

/-- An entry is expired when `now - entry.timestamp > this.ttl`. -/
def expired (ttl now : Nat) (e : CacheEntry α) : Bool :=
  decide (now - e.timestamp > ttl)

/-- The `while (this.cache.size > this.maxSize && this.accessOrder.length > 0)`
loop of `_cleanup`: shift the least-recently-used key and delete it from
the map, until the map fits or the order list is exhausted. -/
def lruEvict (cache : List (CacheKey × CacheEntry α)) (order : List CacheKey)
    (maxSize : Nat) : List (CacheKey × CacheEntry α) × List CacheKey :=
  match order with
  | [] => (cache, [])
  | k :: rest =>
    if cache.length > maxSize then lruEvict (mapDelete cache k) rest maxSize
    else (cache, k :: rest)

/-- `_cleanup()`: delete every expired entry from the map and the access
order, then LRU-evict while the map is still over `maxSize`. -/
def cleanup (s : PermissionCache α) (now : Nat) : PermissionCache α :=
  let expiredKeys := (s.cache.filter (fun e => expired s.ttl now e.2)).map (·.1)
  let cache1 := s.cache.filter (fun e => !(expired s.ttl now e.2))
  let order1 := expiredKeys.foldl removeFirst s.accessOrder
  let pr := lruEvict cache1 order1 s.maxSize
  { s with cache := pr.1, accessOrder := pr.2 }

/-- `get(params)`: returns the cached value and the successor cache state
(undefined on a miss; an expired entry is lazily evicted; a hit promotes
the key in the LRU order). -/
def get (s : PermissionCache α) (k : CacheKey) (now : Nat) :
    Option α × PermissionCache α :=
  match mapGet s.cache k with
  | none => (none, s)
  | some entry =>
    if now - entry.timestamp > s.ttl then
      (none, { s with cache := mapDelete s.cache k
                      accessOrder := removeFirst s.accessOrder k })
    else
      (some entry.value, { s with accessOrder := updateAccessOrder s.accessOrder k })

/-- `set(params, value)`: `_cleanup()`, then store `{value, timestamp: now}`
and promote the key in the LRU order. -/
def set (s : PermissionCache α) (k : CacheKey) (v : α) (now : Nat) :
    PermissionCache α :=
  let s1 := cleanup s now
  { s1 with cache := mapSet s1.cache k { value := v, timestamp := now }
            accessOrder := updateAccessOrder s1.accessOrder k }

/-- Whether a cache key targets the given field: `_parseKey(key).objectType
=== 'field' && _parseKey(key).objectId === fieldId`. -/
def matchesField (fieldId : Nat) (k : CacheKey) : Bool :=
  decide (k.objectType = "field") && decide (k.objectId = fieldId)

/-- `invalidateByField(fieldId)`: collect the matching keys of the map,
then delete each from the map and from the access order. -/
def invalidateByField (s : PermissionCache α) (fieldId : Nat) :
    PermissionCache α :=
  let keysToDelete := (s.cache.filter (fun e => matchesField fieldId e.1)).map (·.1)
  keysToDelete.foldl
    (fun st k =>
      { st with cache := mapDelete st.cache k
                accessOrder := removeFirst st.accessOrder k })
    s

end PermissionCache

/-- Modelled from the spec: a cell value of a row, as consumed by the
condition-rule engine (the engine itself is backend code not present
under src/; only its CRUD UI and HTTP service are).  Values carry
numeric/string semantics for `field_match` operators and a list of user
ids for collaborator/link fields. -/
inductive CellValue where
  | num (n : Int)
  | str (s : String)
  | links (ids : List Nat)
  deriving DecidableEq, Repr

/-- Modelled from the spec: the row data a condition rule is evaluated
against — its creator and its field values. -/
structure Row where
  creatorId : Nat
  cells : List (Nat × CellValue)
  deriving DecidableEq, Repr

/-- Modelled from the spec: `condition_config` of a condition rule
(field id, operator, comparison value, as applicable). -/
structure ConditionConfig where
  field_id : Option Nat
  operator : String
  value : CellValue
  deriving DecidableEq, Repr

/-- A table-owned condition rule, as created by the management UI:
`condition_type ∈ {creator, field_match, collaborator}`,
`permission_level ∈ {invisible, read_only, editable}`, an integer
`priority` (higher wins among matching rules) and an `is_active` flag. -/
structure ConditionRule where
  id : Nat
  condition_type : String
  condition_config : ConditionConfig
  permission_level : String
  priority : Int
  is_active : Bool
  deriving DecidableEq, Repr

/-- Modelled from the spec: substring test for the `contains` operator
(`splitOn` yields more than one piece exactly when the needle occurs). -/
def strContains (s needle : String) : Bool :=
  decide (2 ≤ (s.splitOn needle).length)

/-- Modelled from the spec: one `field_match` comparison
`row[field_id] <operator> value`, with numeric/string semantics from the
cell's value type; operators `equals`, `not_equals`, `contains`,
`greater_than`, `less_than`. -/
def cellMatches (operator : String) (cell value : CellValue) : Bool :=
  if operator = "equals" then decide (cell = value)
  else if operator = "not_equals" then !(decide (cell = value))
  else if operator = "contains" then
    match cell, value with
    | .str s, .str v => strContains s v
    | _, _ => false
  else if operator = "greater_than" then
    match cell, value with
    | .num a, .num b => decide (a > b)
    | .str a, .str b => decide (b < a)
    | _, _ => false
  else if operator = "less_than" then
    match cell, value with
    | .num a, .num b => decide (a < b)
    | .str a, .str b => decide (a < b)
    | _, _ => false
  else false

/-- Modelled from the spec: whether one condition rule matches a row for
the acting user.  `creator` compares the row's creator with the user;
`field_match` applies the configured comparison; `collaborator` tests
membership of the user's id in the designated link field's values.  A
rule with a dangling/absent field reference is treated as non-matching
(misconfiguration tolerance). -/
def ruleMatches (r : ConditionRule) (row : Row) (userId : Nat) : Bool :=
  if r.condition_type = "creator" then decide (row.creatorId = userId)
  else if r.condition_type = "field_match" then
    match lookupNat row.cells r.condition_config.field_id with
    | some cell => cellMatches r.condition_config.operator cell r.condition_config.value
    | none => false
  else if r.condition_type = "collaborator" then
    match lookupNat row.cells r.condition_config.field_id with
    | some (.links ids) => decide (userId ∈ ids)
    | some _ => false
    | none => false
  else false

/-- Modelled from the spec: one selection step — keep the candidate with
the strictly higher priority, the earlier rule on ties. -/
def selStep (row : Row) (userId : Nat) (best : Option ConditionRule)
    (r : ConditionRule) : Option ConditionRule :=
  if r.is_active && ruleMatches r row userId then
    match best with
    | none => some r
    | some b => if r.priority > b.priority then some r else some b
  else best

/-- Modelled from the spec: among all active rules that match the row,
select the one with the highest priority (ties resolved deterministically
in favour of the earlier rule). -/
def selectRule (rules : List ConditionRule) (row : Row) (userId : Nat) :
    Option ConditionRule :=
  rules.foldl (selStep row userId) none

/-- Modelled from the spec: the selected rule's `permission_level` is the
derived row-level decision; no matching active rule means no opinion. -/
def rowConditionLevel (rules : List ConditionRule) (row : Row) (userId : Nat) :
    Option String :=
  (selectRule rules row userId).map (·.permission_level)

theorem hasPermission_layers (p : Permissions) (op : String) (c : Option Context)
    (wid : Nat) (hadmin : p.is_admin = false) (hden : opDenied p op = false) :
    hasPermission (some p) op c wid =
      (match wsBlock p op with
       | some r => r
       | none =>
         match dbBlock p op c with
         | some r => r
         | none =>
           match tableBlock p op c with
           | some r => r
           | none =>
             match fieldBlock p op c with
             | some r => r
             | none => none) := by
  simp [hasPermission, hadmin, hden]

/-- C2 counterexample: with a null `permissions` argument, `hasPermission`
does not return `true` at this concrete input (it returns `null`), so the
claim that an absent snapshot yields `true` fails on the code. -/
theorem no_snapshot_cex :
    hasPermission none "database.create_table" none 1 ≠ some true := by
  decide

/-- C2 (amended): when the `permissions` argument is absent, `hasPermission`
returns `null` (no opinion) — this manager abstains and the host's
permission-manager chain decides, rather than the evaluator itself
returning `true`. -/
theorem no_snapshot_no_opinion (operation : String) (context : Option Context)
    (workspaceId : Nat) :
    hasPermission none operation context workspaceId = none := rfl

/-- C4 counterexample: with `is_admin = true` and the operation in
`denied_operations`, `hasPermission` returns `true`, not `false`: the
admin check runs before the deny-list, so the deny-list is not absolute. -/
theorem deny_list_cex :
    hasPermission
      (some { is_admin := true
              denied_operations := some ["database.create_table"]
              workspace_structure := none
              database_collaborations := none
              table_permissions := none
              field_permissions := none })
      "database.create_table" none 1 = some true := by
  decide

/-- C4 (amended): for a non-admin snapshot, an operation in
`denied_operations` is denied regardless of every other layer's state. -/
theorem deny_list_absolute_for_non_admin (p : Permissions) (ops : List String)
    (operation : String) (context : Option Context) (workspaceId : Nat)
    (hadmin : p.is_admin = false) (hops : p.denied_operations = some ops)
    (hmem : operation ∈ ops) :
    hasPermission (some p) operation context workspaceId = some false := by
  have hden : opDenied p operation = true := by
    unfold opDenied
    rw [hops]
    exact decide_eq_true hmem
  simp [hasPermission, hadmin, hden]

theorem deny_list_absolute_for_non_admin_witness :
    hasPermission
      (some { is_admin := false
              denied_operations := some ["database.create_table"]
              workspace_structure := some { can_create_table := true
                                            can_delete_table := true
                                            can_delete_database := true }
              database_collaborations := none
              table_permissions := none
              field_permissions := none })
      "database.create_table" none 1 = some false :=
  deny_list_absolute_for_non_admin _ ["database.create_table"]
    "database.create_table" none 1 rfl rfl (by decide)

/-- C5 counterexample: a non-admin snapshot with no `workspace_structure`
object is not denied `application.create_application` — the evaluator
returns `null` (defers), so creation is not denied by the evaluator for
every non-admin snapshot. -/
theorem create_application_cex :
    hasPermission
      (some { is_admin := false
              denied_operations := none
              workspace_structure := none
              database_collaborations := none
              table_permissions := none
              field_permissions := none })
      "application.create_application" none 1 ≠ some false := by
  decide

/-- C5 (amended): for every non-admin snapshot in which the
`workspace_structure` object is present, a request to create an
application (`application.create_application` or
`workspace.create_application`) is denied, independent of the value of
any flag in the snapshot. -/
theorem create_application_denied (p : Permissions) (ws : WorkspaceStructure)
    (operation : String) (context : Option Context) (workspaceId : Nat)
    (hadmin : p.is_admin = false) (hws : p.workspace_structure = some ws)
    (hop : operation = "application.create_application" ∨
      operation = "workspace.create_application") :
    hasPermission (some p) operation context workspaceId = some false := by
  by_cases hden : opDenied p operation
  · simp [hasPermission, hadmin, hden]
  · have hwsb : wsBlock p operation = some (some false) := by
      simp only [wsBlock, hws]
      rw [if_pos hop]
    rw [hasPermission_layers p operation context workspaceId hadmin
      (Bool.not_eq_true _ ▸ hden), hwsb]

theorem wsBlock_not_handled (p : Permissions) (op : String)
    (h1 : op ≠ "application.create_application")
    (h2 : op ≠ "workspace.create_application")
    (h3 : op ≠ "application.delete") :
    wsBlock p op = none := by
  unfold wsBlock
  cases p.workspace_structure <;> simp [h1, h2, h3]

theorem dbBlock_no_collab (p : Permissions)
    (collabs : List (Nat × DatabaseCollaboration)) (c : Context) (op : String)
    (hdbc : p.database_collaborations = some collabs)
    (hmiss : lookupNat collabs (jsOrId c.database_id c.id) = none)
    (h1 : op ≠ "database.create_table") (h2 : op ≠ "database.table.delete") :
    dbBlock p op (some c) = none := by
  unfold dbBlock
  rw [hdbc]
  simp only []
  rw [hmiss]
  simp [h1, h2]

theorem tableBlock_row_update_editable (p : Permissions)
    (tps : List (Nat × TablePermissionRec)) (tp : TablePermissionRec) (c : Context)
    (htp : p.table_permissions = some tps)
    (ht : lookupNat tps (jsOrId c.table_id c.id) = some tp)
    (hlevel : tp.permission_level ≠ "read_only") :
    tableBlock p "database.table.row.update" (some c) = none := by
  unfold tableBlock
  rw [htp]
  simp only []
  rw [ht]
  simp [hlevel]

theorem fieldBlock_no_perms (p : Permissions) (c : Context) (op : String)
    (hfp : p.field_permissions = none) :
    fieldBlock p op (some c) = none := by
  unfold fieldBlock
  rw [hfp]

/-- C1 counterexample: the snapshot has a `database_collaborations` map
with no record for database 1, and a `TablePermission` record for table 2
(in database 1) at level `editable`; yet the evaluator does not deny
`database.table.row.update` — it returns `null` (no opinion), so
table-scoped operations are not denied by the evaluator when the
collaboration record is absent. -/
theorem collaboration_gate_cex :
    hasPermission
      (some { is_admin := false
              denied_operations := none
              workspace_structure := none
              database_collaborations := some []
              table_permissions := some [(2, { permission_level := "editable"
                                               can_create_field := true
                                               can_delete_field := true })]
              field_permissions := none })
      "database.table.row.update"
      (some { database_id := some 1, table_id := some 2, field_id := none, id := none })
      1 ≠ some false := by
  decide

/-- C1 (amended): when the snapshot's `database_collaborations` map has no
record for database `d`, database visibility is denied —
`hasAccessToDatabase` returns `false` for a non-admin user — but the
permission evaluator does not itself deny table-scoped operations in
`d`: for `database.table.row.update` on a table of `d` carrying a
`TablePermission` record at level `editable`, `hasPermission` returns
`null` (no opinion), deferring to the host's other permission managers. -/
theorem collaboration_gate (p : Permissions)
    (collabs : List (Nat × DatabaseCollaboration))
    (tps : List (Nat × TablePermissionRec)) (tp : TablePermissionRec)
    (entries : List ManagerEntry) (entry : ManagerEntry) (w : WorkspaceState)
    (d t workspaceId : Nat)
    (hadmin : p.is_admin = false)
    (hdbc : p.database_collaborations = some collabs)
    (hmiss : lookupNat collabs (some d) = none)
    (hloaded : w.permissionsLoaded = true)
    (hwp : w.permissions = some entries)
    (hne : entries.isEmpty = false)
    (hfind : entries.find? (fun e => decide (e.name = "access_control")) = some entry)
    (hperm : entry.permissions = some p)
    (hden : opDenied p "database.table.row.update" = false)
    (htp : p.table_permissions = some tps)
    (ht : lookupNat tps (some t) = some tp)
    (hlevel : tp.permission_level = "editable")
    (hfp : p.field_permissions = none)
    (ht0 : t ≠ 0) :
    hasAccessToDatabase (some w) d = false ∧
    hasPermission (some p) "database.table.row.update"
      (some { database_id := some d, table_id := some t, field_id := none, id := none })
      workspaceId = none := by
  constructor
  · simp only [hasAccessToDatabase, hloaded, hwp, hne, hfind, hperm, hadmin, hdbc,
      hmiss]
    simp
  · set c : Context :=
      { database_id := some d, table_id := some t, field_id := none, id := none }
      with hc
    have hmiss' : lookupNat collabs (jsOrId c.database_id c.id) = none := by
      rw [hc]
      by_cases hd : d = 0
      · simp [jsOrId, hd, lookupNat]
      · simpa [jsOrId, hd] using hmiss
    have ht' : lookupNat tps (jsOrId c.table_id c.id) = some tp := by
      rw [hc]
      simpa [jsOrId, ht0] using ht
    rw [hasPermission_layers p _ (some c) workspaceId hadmin hden,
      wsBlock_not_handled p _ (by decide) (by decide) (by decide),
      dbBlock_no_collab p collabs c _ hdbc hmiss' (by decide) (by decide),
      tableBlock_row_update_editable p tps tp c htp ht' (by rw [hlevel]; decide),
      fieldBlock_no_perms p c _ hfp]

theorem collaboration_gate_witness :
    hasAccessToDatabase
      (some { permissionsLoaded := true
              permissions := some
                [{ name := "access_control"
                   permissions := some
                     { is_admin := false
                       denied_operations := none
                       workspace_structure := none
                       database_collaborations := some []
                       table_permissions := some
                         [(2, { permission_level := "editable"
                                can_create_field := true
                                can_delete_field := true })]
                       field_permissions := none } }] })
      1 = false ∧
    hasPermission
      (some { is_admin := false
              denied_operations := none
              workspace_structure := none
              database_collaborations := some []
              table_permissions := some [(2, { permission_level := "editable"
                                               can_create_field := true
                                               can_delete_field := true })]
              field_permissions := none })
      "database.table.row.update"
      (some { database_id := some 1, table_id := some 2, field_id := none, id := none })
      1 = none :=
  collaboration_gate
    { is_admin := false
      denied_operations := none
      workspace_structure := none
      database_collaborations := some []
      table_permissions := some [(2, { permission_level := "editable"
                                       can_create_field := true
                                       can_delete_field := true })]
      field_permissions := none }
    [] [(2, { permission_level := "editable"
              can_create_field := true
              can_delete_field := true })]
    { permission_level := "editable", can_create_field := true, can_delete_field := true }
    [{ name := "access_control"
       permissions := some
         { is_admin := false
           denied_operations := none
           workspace_structure := none
           database_collaborations := some []
           table_permissions := some
             [(2, { permission_level := "editable"
                    can_create_field := true
                    can_delete_field := true })]
           field_permissions := none } }]
    { name := "access_control"
      permissions := some
        { is_admin := false
          denied_operations := none
          workspace_structure := none
          database_collaborations := some []
          table_permissions := some
            [(2, { permission_level := "editable"
                   can_create_field := true
                   can_delete_field := true })]
          field_permissions := none } }
    { permissionsLoaded := true
      permissions := some
        [{ name := "access_control"
           permissions := some
             { is_admin := false
               denied_operations := none
               workspace_structure := none
               database_collaborations := some []
               table_permissions := some
                 [(2, { permission_level := "editable"
                        can_create_field := true
                        can_delete_field := true })]
               field_permissions := none } }] }
    1 2 1 rfl rfl rfl rfl rfl rfl rfl rfl (by decide) rfl rfl rfl rfl (by decide)

/-- C6 counterexample: with `database.create_table` on the deny-list, the
evaluator returns `false` even though both the workspace-structure flag
and the collaboration flag are `true` for a non-admin user with a
collaboration record — so the OR-widening statement fails as universally
stated. -/
theorem or_widening_cex :
    hasPermission
      (some { is_admin := false
              denied_operations := some ["database.create_table"]
              workspace_structure := some { can_create_table := true
                                            can_delete_table := true
                                            can_delete_database := false }
              database_collaborations := some
                [(1, { accessible_tables := [2]
                       can_create_table := true
                       can_delete_table := true })]
              table_permissions := none
              field_permissions := none })
      "database.create_table"
      (some { database_id := some 1, table_id := none, field_id := none, id := none })
      1 = some false := by
  decide

/-- C6 (amended): for a non-admin user with a collaboration record for the
context's database, and with the operation not on the deny-list,
`database.create_table` (resp. `database.table.delete`) is allowed iff
the workspace-structure flag OR the collaboration flag is true, and
denied when both are false. -/
theorem or_widening_create_delete (p : Permissions)
    (collabs : List (Nat × DatabaseCollaboration)) (collab : DatabaseCollaboration)
    (c : Context) (workspaceId : Nat)
    (hadmin : p.is_admin = false)
    (hdb : p.database_collaborations = some collabs)
    (hcol : lookupNat collabs (jsOrId c.database_id c.id) = some collab)
    (hden1 : opDenied p "database.create_table" = false)
    (hden2 : opDenied p "database.table.delete" = false) :
    hasPermission (some p) "database.create_table" (some c) workspaceId
      = some (wsCanCreateTable p || collab.can_create_table) ∧
    hasPermission (some p) "database.table.delete" (some c) workspaceId
      = some (wsCanDeleteTable p || collab.can_delete_table) := by
  constructor
  · rw [hasPermission_layers p _ (some c) workspaceId hadmin hden1,
      wsBlock_not_handled p _ (by decide) (by decide) (by decide)]
    have hdbb : dbBlock p "database.create_table" (some c)
        = some (if wsCanCreateTable p then some true
                else some collab.can_create_table) := by
      unfold dbBlock
      rw [hdb]
      simp only []
      rw [hcol]
      simp
    rw [hdbb]
    cases h : wsCanCreateTable p <;> simp [h]
  · rw [hasPermission_layers p _ (some c) workspaceId hadmin hden2,
      wsBlock_not_handled p _ (by decide) (by decide) (by decide)]
    have hdbb : dbBlock p "database.table.delete" (some c)
        = some (if wsCanDeleteTable p then some true
                else some collab.can_delete_table) := by
      unfold dbBlock
      rw [hdb]
      simp only []
      rw [hcol]
      simp
    rw [hdbb]
    cases h : wsCanDeleteTable p <;> simp [h]

theorem or_widening_create_delete_witness :
    hasPermission
      (some { is_admin := false
              denied_operations := none
              workspace_structure := some { can_create_table := false
                                            can_delete_table := true
                                            can_delete_database := false }
              database_collaborations := some
                [(3, { accessible_tables := [4]
                       can_create_table := true
                       can_delete_table := false })]
              table_permissions := none
              field_permissions := none })
      "database.create_table"
      (some { database_id := some 3, table_id := none, field_id := none, id := none })
      9 = some true ∧
    hasPermission
      (some { is_admin := false
              denied_operations := none
              workspace_structure := some { can_create_table := false
                                            can_delete_table := true
                                            can_delete_database := false }
              database_collaborations := some
                [(3, { accessible_tables := [4]
                       can_create_table := true
                       can_delete_table := false })]
              table_permissions := none
              field_permissions := none })
      "database.table.delete"
      (some { database_id := some 3, table_id := none, field_id := none, id := none })
      9 = some true :=
  or_widening_create_delete _ _
    { accessible_tables := [4], can_create_table := true, can_delete_table := false }
    { database_id := some 3, table_id := none, field_id := none, id := none }
    9 rfl rfl (by decide) rfl rfl

theorem create_application_denied_witness :
    hasPermission
      (some { is_admin := false
              denied_operations := none
              workspace_structure := some { can_create_table := true
                                            can_delete_table := true
                                            can_delete_database := true }
              database_collaborations := none
              table_permissions := none
              field_permissions := none })
      "application.create_application" none 1 = some false :=
  create_application_denied _ _ "application.create_application" none 1 rfl rfl
    (Or.inl rfl)

theorem selStep_result (row : Row) (u : Nat) (acc : Option ConditionRule)
    (x b : ConditionRule) (hb : selStep row u acc x = some b) :
    (b = x ∧ x.is_active = true ∧ ruleMatches x row u = true) ∨ acc = some b := by
  unfold selStep at hb
  by_cases hx : (x.is_active && ruleMatches x row u) = true
  · rw [if_pos hx] at hb
    rcases Bool.and_eq_true_iff.mp hx with ⟨h1, h2⟩
    cases acc with
    | none =>
      have hb' : some x = some b := hb
      exact Or.inl ⟨(Option.some.inj hb').symm, h1, h2⟩
    | some b0 =>
      change (if x.priority > b0.priority then some x else some b0) = some b at hb
      by_cases hp : x.priority > b0.priority
      · rw [if_pos hp] at hb
        exact Or.inl ⟨(Option.some.inj hb).symm, h1, h2⟩
      · rw [if_neg hp] at hb
        exact Or.inr hb
  · rw [if_neg hx] at hb
    exact Or.inr hb

theorem selStep_keeps_r (row : Row) (u : Nat) (x r : ConditionRule)
    (hxr : x = r ∨ x.priority < r.priority) :
    selStep row u (some r) x = some r := by
  unfold selStep
  by_cases hx : (x.is_active && ruleMatches x row u) = true
  · rw [if_pos hx]
    show (if x.priority > r.priority then some x else some r) = some r
    have hnp : ¬ x.priority > r.priority := by
      rcases hxr with h | h
      · rw [h]; omega
      · omega
    rw [if_neg hnp]
  · rw [if_neg hx]

theorem selStep_takes_r (row : Row) (u : Nat) (acc : Option ConditionRule)
    (r : ConditionRule) (ha : r.is_active = true) (hm : ruleMatches r row u = true)
    (hacc : ∀ b, acc = some b → b = r ∨ b.priority < r.priority) :
    selStep row u acc r = some r := by
  unfold selStep
  rw [if_pos (by rw [ha, hm]; rfl)]
  cases acc with
  | none => rfl
  | some b0 =>
    show (if r.priority > b0.priority then some r else some b0) = some r
    rcases hacc b0 rfl with h | h
    · rw [h, ite_self]
    · rw [if_pos h]

theorem foldl_selStep (row : Row) (u : Nat) (r : ConditionRule)
    (ha : r.is_active = true) (hm : ruleMatches r row u = true) :
    ∀ (rest : List ConditionRule) (acc : Option ConditionRule),
      (∀ r' ∈ rest, r'.is_active = true → ruleMatches r' row u = true →
        r' = r ∨ r'.priority < r.priority) →
      (r ∈ rest ∨ acc = some r) →
      (∀ b, acc = some b → b = r ∨ b.priority < r.priority) →
      rest.foldl (selStep row u) acc = some r := by
  intro rest
  induction rest with
  | nil =>
    intro acc _ hracc _
    rcases hracc with h | h
    · exact absurd h (List.not_mem_nil r)
    · simpa using h
  | cons x rest ih =>
    intro acc hrest hracc hacc
    rw [List.foldl_cons]
    have hrest' : ∀ r' ∈ rest, r'.is_active = true → ruleMatches r' row u = true →
        r' = r ∨ r'.priority < r.priority :=
      fun r' h => hrest r' (List.mem_cons_of_mem x h)
    have hacc' : ∀ b, selStep row u acc x = some b →
        b = r ∨ b.priority < r.priority := by
      intro b hb
      rcases selStep_result row u acc x b hb with ⟨hbx, hx1, hx2⟩ | hab
      · rw [hbx]
        exact hrest x (List.mem_cons_self x rest) hx1 hx2
      · exact hacc b hab
    apply ih _ hrest' _ hacc'
    by_cases hracc' : acc = some r
    · right
      rw [hracc']
      by_cases hx : (x.is_active && ruleMatches x row u) = true
      · rcases Bool.and_eq_true_iff.mp hx with ⟨hx1, hx2⟩
        exact selStep_keeps_r row u x r (hrest x (List.mem_cons_self x rest) hx1 hx2)
      · unfold selStep
        rw [if_neg hx]
    · have hrin : r ∈ x :: rest := by
        rcases hracc with h | h
        · exact h
        · exact absurd h hracc'
      rcases List.mem_cons.mp hrin with hrx | hrrest
      · right
        subst hrx
        exact selStep_takes_r _ _ _ _ ha hm hacc
      · left
        exact hrrest

/-- C7: among the active condition rules that match a row for the acting
user, the rule with the (strictly) highest priority is selected and its
`permission_level` becomes the derived row-level decision; in particular
with matching active rules of priorities 5 and 10, the priority-10 rule's
level is applied (see the witness). -/
theorem condition_rule_priority (rules : List ConditionRule) (row : Row) (u : Nat)
    (r : ConditionRule) (hr : r ∈ rules) (ha : r.is_active = true)
    (hm : ruleMatches r row u = true)
    (hmax : ∀ r' ∈ rules, r'.is_active = true → ruleMatches r' row u = true →
      r' = r ∨ r'.priority < r.priority) :
    rowConditionLevel rules row u = some r.permission_level := by
  have hsel : selectRule rules row u = some r :=
    foldl_selStep row u r ha hm rules none hmax (Or.inl hr)
      (fun b hb => by cases hb)
  unfold rowConditionLevel
  rw [hsel]
  rfl

theorem condition_rule_priority_witness :
    rowConditionLevel
      [{ id := 1
         condition_type := "creator"
         condition_config := { field_id := none, operator := "equals", value := .num 0 }
         permission_level := "read_only"
         priority := 5
         is_active := true },
       { id := 2
         condition_type := "creator"
         condition_config := { field_id := none, operator := "equals", value := .num 0 }
         permission_level := "editable"
         priority := 10
         is_active := true }]
      { creatorId := 7, cells := [] } 7 = some "editable" :=
  condition_rule_priority _ { creatorId := 7, cells := [] } 7
    { id := 2
      condition_type := "creator"
      condition_config := { field_id := none, operator := "equals", value := .num 0 }
      permission_level := "editable"
      priority := 10
      is_active := true }
    (by decide) rfl (by decide) (by decide)

theorem mapGet_mapSet_self (m : List (CacheKey × CacheEntry α)) (k : CacheKey)
    (v : CacheEntry α) : mapGet (mapSet m k v) k = some v := by
  induction m with
  | nil => simp [mapSet, mapGet]
  | cons e rest ih =>
    unfold mapSet
    by_cases h : e.1 = k
    · rw [if_pos h]
      simp [mapGet]
    · rw [if_neg h]
      unfold mapGet
      rw [if_neg h]
      exact ih

theorem mapGet_mapDelete_self (m : List (CacheKey × CacheEntry α)) (k : CacheKey) :
    mapGet (mapDelete m k) k = none := by
  induction m with
  | nil => rfl
  | cons e rest ih =>
    unfold mapDelete at ih ⊢
    rw [List.filter_cons]
    by_cases h : e.1 = k
    · simp [h, ih]
    · simp only [decide_eq_false h, Bool.not_false, if_true]
      unfold mapGet
      rw [if_neg h]
      exact ih

theorem set_ttl (s : PermissionCache α) (k : CacheKey) (v : α) (now : Nat) :
    (s.set k v now).ttl = s.ttl := rfl

theorem get_set_fst (s : PermissionCache α) (k : CacheKey) (v : α) (now t : Nat)
    (h : t - now ≤ s.ttl) : ((s.set k v now).get k t).1 = some v := by
  have hm : mapGet (s.set k v now).cache k = some { value := v, timestamp := now } :=
    mapGet_mapSet_self _ _ _
  unfold PermissionCache.get
  rw [hm]
  simp only [set_ttl]
  rw [if_neg (by simp; omega)]

theorem get_set_expired (s : PermissionCache α) (k : CacheKey) (v : α) (now t : Nat)
    (h : s.ttl < t - now) :
    ((s.set k v now).get k t).1 = none ∧
    mapGet ((s.set k v now).get k t).2.cache k = none := by
  have hm : mapGet (s.set k v now).cache k = some { value := v, timestamp := now } :=
    mapGet_mapSet_self _ _ _
  unfold PermissionCache.get
  rw [hm]
  simp only [set_ttl]
  rw [if_pos (by simp; omega)]
  exact ⟨rfl, mapGet_mapDelete_self _ _⟩

/-- C8: a `set(k, v)` followed by `get(k)` returns `v` whenever the
elapsed time since the set is within the TTL; once the TTL has expired,
`get(k)` returns a miss (`undefined`) and the expired entry is evicted
from the map. -/
theorem cache_round_trip (s : PermissionCache α) (k : CacheKey) (v : α)
    (now t : Nat) :
    (t - now ≤ s.ttl → ((s.set k v now).get k t).1 = some v) ∧
    (s.ttl < t - now →
      ((s.set k v now).get k t).1 = none ∧
      mapGet ((s.set k v now).get k t).2.cache k = none) :=
  ⟨fun h => get_set_fst s k v now t h, fun h => get_set_expired s k v now t h⟩

theorem cache_round_trip_witness :
    ((((PermissionCache.init Bool (some 5) (some 3)).set
        { workspaceId := 1, userId := 2, objectType := "field", objectId := 3,
          operation := "read" } true 0).get
        { workspaceId := 1, userId := 2, objectType := "field", objectId := 3,
          operation := "read" } 3).1 = some true) ∧
    ((((PermissionCache.init Bool (some 5) (some 3)).set
        { workspaceId := 1, userId := 2, objectType := "field", objectId := 3,
          operation := "read" } true 0).get
        { workspaceId := 1, userId := 2, objectType := "field", objectId := 3,
          operation := "read" } 9).1 = none) :=
  ⟨(cache_round_trip (PermissionCache.init Bool (some 5) (some 3))
      { workspaceId := 1, userId := 2, objectType := "field", objectId := 3,
        operation := "read" } true 0 3).1 (by decide),
   ((cache_round_trip (PermissionCache.init Bool (some 5) (some 3))
      { workspaceId := 1, userId := 2, objectType := "field", objectId := 3,
        operation := "read" } true 0 9).2 (by decide)).1⟩

/-- C10: a construction-time TTL of `0` (and max size of `0`) silently
falls back to the defaults because of the `||` truthiness fallback —
the instance's `ttl` is 5 minutes and `maxSize` is 1000 — and a `get`
within the 5-minute default TTL of a `set` still returns the cached
value, so caching cannot be disabled through the constructor's `ttl`
parameter. -/
theorem zero_ttl_falls_back (α : Type) (k : CacheKey) (v : α) (now t : Nat)
    (h : t - now ≤ DEFAULT_CACHE_TTL) :
    (PermissionCache.init α (some 0) (some 0)).ttl = DEFAULT_CACHE_TTL ∧
    (PermissionCache.init α (some 0) (some 0)).maxSize = DEFAULT_MAX_CACHE_SIZE ∧
    (((PermissionCache.init α (some 0) (some 0)).set k v now).get k t).1 = some v :=
  ⟨rfl, rfl, get_set_fst (PermissionCache.init α (some 0) (some 0)) k v now t h⟩

theorem zero_ttl_falls_back_witness :
    (((PermissionCache.init Bool (some 0) (some 0)).set
        { workspaceId := 1, userId := 2, objectType := "table", objectId := 3,
          operation := "update" } false 0).get
        { workspaceId := 1, userId := 2, objectType := "table", objectId := 3,
          operation := "update" } 299999).1 = some false :=
  (zero_ttl_falls_back Bool
    { workspaceId := 1, userId := 2, objectType := "table", objectId := 3,
      operation := "update" } false 0 299999 (by decide)).2.2

/-- C3 (code divergence, evaluated at the failing input): with
`maxSize = 2`, inserting three distinct keys via `set` (all at time 0, so
nothing expires under the TTL of 100) leaves THREE entries in the cache
and the least-recently-used key is still present — `_cleanup` runs before
the insertion and only evicts while `size > maxSize`, so the claimed
bound of exactly `maxSize` retained entries with the LRU key evicted does
not hold. -/
theorem lru_bound_violated :
    ((((PermissionCache.init Bool (some 100) (some 2)).set
        { workspaceId := 1, userId := 1, objectType := "table", objectId := 1,
          operation := "a" } true 0).set
        { workspaceId := 1, userId := 1, objectType := "table", objectId := 2,
          operation := "a" } true 0).set
        { workspaceId := 1, userId := 1, objectType := "table", objectId := 3,
          operation := "a" } true 0).cache.length = 3 ∧
    mapGet ((((PermissionCache.init Bool (some 100) (some 2)).set
        { workspaceId := 1, userId := 1, objectType := "table", objectId := 1,
          operation := "a" } true 0).set
        { workspaceId := 1, userId := 1, objectType := "table", objectId := 2,
          operation := "a" } true 0).set
        { workspaceId := 1, userId := 1, objectType := "table", objectId := 3,
          operation := "a" } true 0).cache
      { workspaceId := 1, userId := 1, objectType := "table", objectId := 1,
        operation := "a" } = some { value := true, timestamp := 0 } := by
  decide

theorem invalidate_fold (ks : List CacheKey) (s : PermissionCache α) :
    ks.foldl
      (fun st k =>
        { st with cache := mapDelete st.cache k
                  accessOrder := removeFirst st.accessOrder k })
      s
    = { s with cache := ks.foldl mapDelete s.cache
               accessOrder := ks.foldl removeFirst s.accessOrder } := by
  induction ks generalizing s with
  | nil => rfl
  | cons k rest ih =>
    simp only [List.foldl_cons]
    rw [ih]

theorem foldl_mapDelete (ks : List CacheKey) (m : List (CacheKey × CacheEntry α)) :
    ks.foldl mapDelete m = m.filter (fun e => !(decide (e.1 ∈ ks))) := by
  induction ks generalizing m with
  | nil => simp
  | cons k rest ih =>
    simp only [List.foldl_cons]
    rw [ih]
    unfold mapDelete
    rw [List.filter_filter]
    apply List.filter_congr
    intro e _
    by_cases h1 : e.1 = k <;> by_cases h2 : e.1 ∈ rest <;> simp [h1, h2]

theorem removeFirst_eq_filter (l : List CacheKey) (k : CacheKey) (h : l.Nodup) :
    removeFirst l k = l.filter (fun x => !(decide (x = k))) := by
  induction l with
  | nil => rfl
  | cons x xs ih =>
    rcases List.nodup_cons.mp h with ⟨hx, hxs⟩
    unfold removeFirst
    by_cases hxk : x = k
    · rw [if_pos hxk, List.filter_cons_of_neg (by simp [hxk])]
      refine (List.filter_eq_self.mpr ?_).symm
      intro a ha
      have hak : a ≠ k := by
        intro hak
        have hax : a = x := hak.trans hxk.symm
        exact hx (hax ▸ ha)
      simp [hak]
    · rw [if_neg hxk, List.filter_cons_of_pos (by simp [hxk]), ih hxs]

theorem foldl_removeFirst (ks : List CacheKey) (l : List CacheKey) (h : l.Nodup) :
    ks.foldl removeFirst l = l.filter (fun x => !(decide (x ∈ ks))) := by
  induction ks generalizing l with
  | nil => simp
  | cons k rest ih =>
    simp only [List.foldl_cons]
    rw [removeFirst_eq_filter l k h, ih _ (h.filter _), List.filter_filter]
    apply List.filter_congr
    intro x _
    by_cases h1 : x = k <;> by_cases h2 : x ∈ rest <;> simp [h1, h2]

theorem mem_invalidation_keys (m : List (CacheKey × CacheEntry α)) (f : Nat)
    (k : CacheKey) :
    k ∈ (m.filter (fun e => PermissionCache.matchesField f e.1)).map (·.1) ↔
      (∃ e ∈ m, e.1 = k) ∧ PermissionCache.matchesField f k = true := by
  constructor
  · intro hk
    rcases List.mem_map.mp hk with ⟨e, he, hek⟩
    rcases List.mem_filter.mp he with ⟨hem, hmf⟩
    exact ⟨⟨e, hem, hek⟩, hek ▸ hmf⟩
  · rintro ⟨⟨e, hem, hek⟩, hmf⟩
    exact List.mem_map.mpr ⟨e, List.mem_filter.mpr ⟨hem, hek ▸ hmf⟩, hek⟩

/-- C9: `invalidateByField f` removes exactly the cache entries whose key
has object type `field` and object id `f`; every other entry is kept with
its value, and the LRU access order keeps exactly the non-matching keys
in their original relative order (stated for a well-formed cache state:
no duplicate keys in the access order and every ordered key present in
the map, which every reachable state satisfies). -/
theorem invalidateByField_cache (s : PermissionCache α) (f : Nat) :
    (s.invalidateByField f).cache
      = ((s.cache.filter (fun e => PermissionCache.matchesField f e.1)).map
          (·.1)).foldl mapDelete s.cache := by
  simp only [PermissionCache.invalidateByField]
  rw [invalidate_fold]

theorem invalidateByField_order (s : PermissionCache α) (f : Nat) :
    (s.invalidateByField f).accessOrder
      = ((s.cache.filter (fun e => PermissionCache.matchesField f e.1)).map
          (·.1)).foldl removeFirst s.accessOrder := by
  simp only [PermissionCache.invalidateByField]
  rw [invalidate_fold]

theorem field_invalidation_frame (s : PermissionCache α) (f : Nat)
    (hnd : s.accessOrder.Nodup)
    (hsub : ∀ k ∈ s.accessOrder, ∃ e ∈ s.cache, e.1 = k) :
    (s.invalidateByField f).cache
      = s.cache.filter (fun e => !(PermissionCache.matchesField f e.1)) ∧
    (s.invalidateByField f).accessOrder
      = s.accessOrder.filter (fun k => !(PermissionCache.matchesField f k)) := by
  constructor
  · rw [invalidateByField_cache, foldl_mapDelete]
    apply List.filter_congr
    intro e he
    by_cases hm : PermissionCache.matchesField f e.1 = true
    · have hin : e.1 ∈ (s.cache.filter
          (fun e => PermissionCache.matchesField f e.1)).map (·.1) :=
        (mem_invalidation_keys s.cache f e.1).mpr ⟨⟨e, he, rfl⟩, hm⟩
      simp [hin, hm]
    · have hout : e.1 ∉ (s.cache.filter
          (fun e => PermissionCache.matchesField f e.1)).map (·.1) :=
        fun hin => hm ((mem_invalidation_keys s.cache f e.1).mp hin).2
      have hm' : PermissionCache.matchesField f e.1 = false := by simpa using hm
      simp [hout, hm']
  · rw [invalidateByField_order, foldl_removeFirst _ _ hnd]
    apply List.filter_congr
    intro k hk
    by_cases hm : PermissionCache.matchesField f k = true
    · have hin : k ∈ (s.cache.filter
          (fun e => PermissionCache.matchesField f e.1)).map (·.1) :=
        (mem_invalidation_keys s.cache f k).mpr ⟨hsub k hk, hm⟩
      simp [hin, hm]
    · have hout : k ∉ (s.cache.filter
          (fun e => PermissionCache.matchesField f e.1)).map (·.1) :=
        fun hin => hm ((mem_invalidation_keys s.cache f k).mp hin).2
      have hm' : PermissionCache.matchesField f k = false := by simpa using hm
      simp [hout, hm']

theorem field_invalidation_frame_witness :
    ({ ttl := 100, maxSize := 10
       cache := [({ workspaceId := 1, userId := 1, objectType := "field",
                    objectId := 7, operation := "read" },
                  { value := true, timestamp := 0 }),
                 ({ workspaceId := 1, userId := 1, objectType := "field",
                    objectId := 8, operation := "read" },
                  { value := false, timestamp := 0 }),
                 ({ workspaceId := 1, userId := 2, objectType := "table",
                    objectId := 7, operation := "update" },
                  { value := true, timestamp := 0 })]
       accessOrder := [{ workspaceId := 1, userId := 1, objectType := "field",
                         objectId := 7, operation := "read" },
                       { workspaceId := 1, userId := 1, objectType := "field",
                         objectId := 8, operation := "read" },
                       { workspaceId := 1, userId := 2, objectType := "table",
                         objectId := 7, operation := "update" }]
       : PermissionCache Bool }.invalidateByField 7).cache
      = [({ workspaceId := 1, userId := 1, objectType := "field",
            objectId := 8, operation := "read" },
          { value := false, timestamp := 0 }),
         ({ workspaceId := 1, userId := 2, objectType := "table",
            objectId := 7, operation := "update" },
          { value := true, timestamp := 0 })] ∧
    ({ ttl := 100, maxSize := 10
       cache := [({ workspaceId := 1, userId := 1, objectType := "field",
                    objectId := 7, operation := "read" },
                  { value := true, timestamp := 0 }),
                 ({ workspaceId := 1, userId := 1, objectType := "field",
                    objectId := 8, operation := "read" },
                  { value := false, timestamp := 0 }),
                 ({ workspaceId := 1, userId := 2, objectType := "table",
                    objectId := 7, operation := "update" },
                  { value := true, timestamp := 0 })]
       accessOrder := [{ workspaceId := 1, userId := 1, objectType := "field",
                         objectId := 7, operation := "read" },
                       { workspaceId := 1, userId := 1, objectType := "field",
                         objectId := 8, operation := "read" },
                       { workspaceId := 1, userId := 2, objectType := "table",
                         objectId := 7, operation := "update" }]
       : PermissionCache Bool }.invalidateByField 7).accessOrder
      = [{ workspaceId := 1, userId := 1, objectType := "field",
           objectId := 8, operation := "read" },
         { workspaceId := 1, userId := 2, objectType := "table",
           objectId := 7, operation := "update" }] := by
  have h := field_invalidation_frame
    { ttl := 100, maxSize := 10
      cache := [({ workspaceId := 1, userId := 1, objectType := "field",
                   objectId := 7, operation := "read" },
                 { value := true, timestamp := 0 }),
                ({ workspaceId := 1, userId := 1, objectType := "field",
                   objectId := 8, operation := "read" },
                 { value := false, timestamp := 0 }),
                ({ workspaceId := 1, userId := 2, objectType := "table",
                   objectId := 7, operation := "update" },
                 { value := true, timestamp := 0 })]
      accessOrder := [{ workspaceId := 1, userId := 1, objectType := "field",
                        objectId := 7, operation := "read" },
                      { workspaceId := 1, userId := 1, objectType := "field",
                        objectId := 8, operation := "read" },
                      { workspaceId := 1, userId := 2, objectType := "table",
                        objectId := 7, operation := "update" }] }
    7 (by decide) (by decide)
  rw [h.1, h.2]
  constructor <;> rfl

end Baserow
